import Mathlib

/-!
Verification of the subtitle acquisition-and-enhancement orchestrator
(`src/main.py`) against its specification. The Python source is shallowly
embedded: pure fragments become Lean functions, the two external network
capabilities (the subliminal provider search and the OpenRouter completion
call) become explicit function/value parameters, the Streamlit session cache
becomes explicit state passing, and the temporary-directory lifecycle of
`search_and_download_subtitles` is recorded as an explicit trace of
filesystem events. Counters record how many times each external capability
is invoked on a given control path.
-/

/-- Media kind selected in the UI (`st.selectbox("Media Type", ["movie",
"episode"])` at src/main.py:173). -/
inductive MediaType where
  | movie
  | episode
  deriving DecidableEq, Repr

/-- The string the Python code carries for the media type (`"movie"` /
`"episode"`), used verbatim inside the cache key at src/main.py:212. -/
def MediaType.str : MediaType → String
  | MediaType.movie => "movie"
  | MediaType.episode => "episode"

/-- One subtitle match as handed back by the provider capability: the fields
the orchestrator reads (`sub.language.alpha3`, `sub.provider_name`, `sub.id`,
`sub.content`, optional `sub.hearing_impaired`; src/main.py:94-96, 270-273).
`language` is the alpha3 code; `content` is an opaque blob. -/
structure SubtitleResult where
  language : String
  provider_name : String
  id : String
  content : String
  hearing_impaired : Option Bool
  deriving DecidableEq, Repr

/-- The synthetic video object after `scan_video` plus the metadata
assignments at src/main.py:69-77: `title` and `year` are always set; for an
episode the code additionally sets `series`, `season` and `episode`. -/
structure Video where
  title : String
  year : Nat
  series : Option String
  season : Option Nat
  episode : Option Nat
  deriving DecidableEq, Repr

/-- Filesystem side effects of `search_and_download_subtitles`:
`tempfile.mkdtemp()` (line 58), writing the dummy `.mkv` file (lines 64-65),
and `shutil.rmtree(temp_dir)` in the `finally` block (line 103). -/
inductive FsEvent where
  | mkdtempEv
  | writeDummyEv
  | rmtreeEv
  deriving DecidableEq, Repr

/-- Lookup in a Python dict modelled as an insertion-ordered association
list with unique keys (`results[lang]` / `cache_key in st.session_state.search_cache`). -/
def dictLookup {α : Type} : List (String × α) → String → Option α
  | [], _ => none
  | p :: d, key => if p.1 = key then some p.2 else dictLookup d key

/-- Assignment `d[key] = v` on a Python dict: replaces the value in place
when the key is present (CPython keeps the original position), otherwise
appends the new pair. -/
def dictInsert {α : Type} : List (String × α) → String → α → List (String × α)
  | [], key, v => [(key, v)]
  | p :: d, key, v => if p.1 = key then (key, v) :: d else p :: dictInsert d key v

/-- A `SearchResultSet`: the dict built at src/main.py:93-96, mapping an
alpha3 language code to the subtitle stored for it. -/
abbrev SearchResults : Type := List (String × SubtitleResult)

/-- The loop at src/main.py:93-96: `results = {}` then
`for sub in subtitles.get(video, []): results[sub.language.alpha3] = sub`. -/
def organizeResults (subs : List SubtitleResult) : SearchResults :=
  subs.foldl (fun results sub => dictInsert results sub.language sub) []

/-- The video metadata assembly at src/main.py:69-77: `scan_video` on the
dummy file yields an object whose `title`/`year` are then overwritten; the
`series`/`season`/`episode` fields are set only on the `episode` branch. -/
def mkVideo (title : String) (year : Nat) (media_type : MediaType)
    (season episode : Option Nat) : Video :=
  if media_type = MediaType.episode then
    { title := title, year := year, series := some title,
      season := season, episode := episode }
  else
    { title := title, year := year, series := none,
      season := none, episode := none }

/-- Embedding of `search_and_download_subtitles` (src/main.py:53-104).
`capability` stands for the opaque external provider search
(`download_best_subtitles` applied to the synthesized video, the language
set and the provider list); it either returns the matched subtitles for the
video or raises (modelled as `Except.error` carrying the exception message).
The function performs no validation of its inputs: it builds the video,
invokes the capability once, and on success organizes the matches by
language. The returned triple is (outcome, filesystem-event trace,
number of capability invocations). The `try`/`finally` at lines 62-104
guarantees `shutil.rmtree` runs on both the success path and the re-raise
path, so both branches end their trace with `FsEvent.rmtreeEv`. -/
def search_and_download_subtitles (title : String) (year : Nat)
    (media_type : MediaType) (languages : List String)
    (providers_list : List String) (season episode : Option Nat)
    (capability : Video → List String → List String →
      Except String (List SubtitleResult)) :
    Except String SearchResults × List FsEvent × Nat :=
  match capability (mkVideo title year media_type season episode)
      languages providers_list with
  | Except.ok subs =>
      (Except.ok (organizeResults subs),
       [FsEvent.mkdtempEv, FsEvent.writeDummyEv, FsEvent.rmtreeEv], 1)
  | Except.error e =>
      (Except.error e,
       [FsEvent.mkdtempEv, FsEvent.writeDummyEv, FsEvent.rmtreeEv], 1)

/-- The message object inside a chat completion (the openai response type;
only `content` is ever read, and only in the commented-out line 139). -/
structure ChatMessage where
  content : String
  deriving DecidableEq, Repr

/-- One choice of a chat completion. -/
structure ChatChoice where
  message : ChatMessage
  deriving DecidableEq, Repr

/-- The object `openai.chat.completions.create` returns (src/main.py:129):
a completion carrying a list of choices. It is an API object, not a string. -/
structure ChatCompletion where
  choices : List ChatChoice
  deriving DecidableEq, Repr

/-- Outcome of `enhance_subtitles`. The Python function returns the enhanced
string on success and `None` on each failure path, after reporting a
distinct error through `st.error`; the outcome records which exit was taken
together with the reported message. -/
inductive EnhanceOutcome where
  | ok (text : String)
  | missingCredential (msg : String)
  | enhancementFailed (msg : String)
  deriving DecidableEq, Repr

/-- Line 140 of src/main.py executes `response.strip()`: an attribute lookup
of `strip` on the completion object. A `ChatCompletion` is not a `str` and
has no `strip` attribute, so for every completion object this raises
`AttributeError` (the line that would read
`response.choices[0].message.content.strip()` is commented out at line 139).
The raised exception is modelled as `Except.error` carrying the Python
error text, apostrophes elided. -/
def completionStrip (_response : ChatCompletion) : Except String String :=
  Except.error "AttributeError: ChatCompletion object has no attribute strip"

/-- Embedding of `enhance_subtitles` (src/main.py:107-155). `apiKey` is the
`OPENROUTER_API_KEY` environment value (`none` when unset); `capability` is
the opaque completion call, either a completion object or a raised
transport/auth/rate-limit error with its message. Control flow: when the key
is missing the function reports an error and returns before any network
call (lines 109-112); otherwise the capability is invoked once inside
`try`; any exception — including the `AttributeError` raised by
`response.strip()` at line 140 — reaches the handler at lines 152-155,
which reports the message prefixed with `AI Enhancement Error: ` and
returns `None`. The SRT-format validation at lines 144-147 is commented
out, so no `InvalidFormat` path exists. The second component counts
capability invocations. -/
def enhance_subtitles (apiKey : Option String)
    (capability : Except String ChatCompletion) : EnhanceOutcome × Nat :=
  match apiKey with
  | none =>
      (EnhanceOutcome.missingCredential
        "Missing OpenAI API key. Please set the OPENROUTER_API_KEY environment variable.",
       0)
  | some _ =>
      match capability with
      | Except.error e =>
          (EnhanceOutcome.enhancementFailed ("AI Enhancement Error: " ++ e), 1)
      | Except.ok response =>
          match completionStrip response with
          | Except.error e =>
              (EnhanceOutcome.enhancementFailed ("AI Enhancement Error: " ++ e), 1)
          | Except.ok text => (EnhanceOutcome.ok text, 1)

/-- The cache-key construction at src/main.py:212-214:
`f"{title}_{media_type}_{year}_{..join(selected_langs)}_{..join(selected_providers)}"`,
with `f"_{season}_{episode}"` appended for episodes. The selections are
joined in their list (iteration) order; nothing sorts them. -/
def cache_key (title : String) (media_type : MediaType) (year : Nat)
    (selected_langs selected_providers : List String)
    (season episode : Nat) : String :=
  let base := title ++ "_" ++ media_type.str ++ "_" ++ toString year ++ "_"
    ++ String.intercalate "_" selected_langs ++ "_"
    ++ String.intercalate "_" selected_providers
  if media_type = MediaType.episode then
    base ++ "_" ++ toString season ++ "_" ++ toString episode
  else
    base

/-- One search request as assembled by `main` from the form state
(src/main.py:171-214). `season`/`episode` always hold the spinner values
(the UI forces them to be at least 1; they are ignored for movies). -/
structure Request where
  title : String
  media_type : MediaType
  year : Nat
  selected_langs : List String
  selected_providers : List String
  season : Nat
  episode : Nat
  deriving DecidableEq, Repr

/-- The cache key of a request (src/main.py:212-214). -/
def Request.key (r : Request) : String :=
  cache_key r.title r.media_type r.year r.selected_langs r.selected_providers
    r.season r.episode

/-- The session search cache `st.session_state.search_cache`
(src/main.py:163-164): a dict from cache key to stored result set. -/
abbrev SearchCache : Type := List (String × SearchResults)

/-- One press of the Search button with non-empty fields
(src/main.py:218-236): when the key is cached the stored results are reused
(line 218-219); otherwise the aggregator is run — `compute` stands for the
outcome of `search_and_download_subtitles` — and on success the results are
stored (line 231), while on an exception the handler sets `results = {}`
and stores nothing (lines 233-236). Returns (new cache, results shown,
number of aggregator invocations). -/
def searchStep (cache : SearchCache) (req : Request)
    (compute : Except String SearchResults) :
    SearchCache × SearchResults × Nat :=
  match dictLookup cache req.key with
  | some results => (cache, results, 0)
  | none =>
      match compute with
      | Except.ok results => (dictInsert cache req.key results, results, 1)
      | Except.error _ => (cache, [], 1)

/-- A session: a sequence of presses of the Search button with the same
request. The n-th entry of the list is what the aggregator would produce
were it invoked on the n-th press. Returns the final cache, the results
shown on each press, and the total number of aggregator invocations. -/
def runSearches : SearchCache → Request →
    List (Except String SearchResults) →
    SearchCache × List SearchResults × Nat
  | cache, _, [] => (cache, [], 0)
  | cache, req, c :: cs =>
      let step := searchStep cache req c
      let rest := runSearches step.1 req cs
      (rest.1, step.2.1 :: rest.2.1, step.2.2 + rest.2.2)

/-- A concrete English subtitle match, used in witnesses. -/
def subEng : SubtitleResult :=
  { language := "eng", provider_name := "opensubtitles", id := "sub-7",
    content := "hello", hearing_impaired := none }

/-- A concrete French subtitle match, used in counterexamples. -/
def subFra : SubtitleResult :=
  { language := "fra", provider_name := "opensubtitles", id := "sub-42",
    content := "bonjour", hearing_impaired := none }

/-- A capability stub that always returns the one English match. -/
def capEng : Video → List String → List String →
    Except String (List SubtitleResult) :=
  fun _ _ _ => Except.ok [subEng]

/-- A capability stub that always returns the one French match. -/
def capFra : Video → List String → List String →
    Except String (List SubtitleResult) :=
  fun _ _ _ => Except.ok [subFra]

/-- A capability stub that reaches the providers but finds nothing. -/
def capEmpty : Video → List String → List String →
    Except String (List SubtitleResult) :=
  fun _ _ _ => Except.ok []

/-- A concrete request, used in witnesses. -/
def req0 : Request :=
  { title := "Inception", media_type := MediaType.movie, year := 2010,
    selected_langs := ["eng"], selected_providers := ["opensubtitles"],
    season := 1, episode := 1 }

/-- A concrete stored result set, used in witnesses. -/
def res0 : SearchResults := [("eng", subEng)]

/-- A concrete completion whose message content is a well-formed SRT block. -/
def completion0 : ChatCompletion :=
  { choices := [{ message :=
      { content := "1\n00:00:01,000 --> 00:00:02,000\nHello\n" } }] }

/-! Helper lemmas about the dict model. -/

theorem dictLookup_dictInsert_self {α : Type} (d : List (String × α))
    (k : String) (v : α) : dictLookup (dictInsert d k v) k = some v := by
  induction d with
  | nil => simp [dictInsert, dictLookup]
  | cons p d ih =>
    by_cases h : p.1 = k
    · simp [dictInsert, dictLookup, h]
    · simp [dictInsert, dictLookup, h, ih]

theorem dictLookup_dictInsert_ne {α : Type} (d : List (String × α))
    (k k' : String) (v : α) (h : k' ≠ k) :
    dictLookup (dictInsert d k v) k' = dictLookup d k' := by
  induction d with
  | nil => simp [dictInsert, dictLookup, Ne.symm h]
  | cons p d ih =>
    by_cases hp : p.1 = k
    · simp [dictInsert, dictLookup, hp, Ne.symm h]
    · simp [dictInsert, dictLookup, hp, ih]

theorem foldl_dictInsert_lookup (subs : List SubtitleResult)
    (d : SearchResults) (l : String) :
    dictLookup (subs.foldl (fun results sub => dictInsert results sub.language sub) d) l =
      match (subs.filter (fun s => s.language == l)).getLast? with
      | some s => some s
      | none => dictLookup d l := by
  induction subs generalizing d with
  | nil => simp
  | cons s ss ih =>
    rw [List.foldl_cons, ih]
    by_cases h : s.language = l
    · rw [List.filter_cons_of_pos (by simp [h]), List.getLast?_cons]
      cases hfs : (ss.filter (fun s => s.language == l)).getLast? with
      | none => simp [hfs, ← h, dictLookup_dictInsert_self]
      | some t => simp [hfs]
    · rw [List.filter_cons_of_neg (by simp [h])]
      cases hfs : (ss.filter (fun s => s.language == l)).getLast? with
      | none =>
        have hne : l ≠ s.language := fun hh => h hh.symm
        simp [hfs, dictLookup_dictInsert_ne _ _ _ _ hne]
      | some t => simp [hfs]

theorem getLast?_mem_of_eq {α : Type} :
    ∀ (l : List α) (a : α), l.getLast? = some a → a ∈ l
  | [], a, h => by simp at h
  | [b], a, h => by
      simp [List.getLast?] at h
      simp [h]
  | b :: c :: l, a, h => by
      rw [List.getLast?_cons_cons] at h
      exact List.mem_cons_of_mem b (getLast?_mem_of_eq (c :: l) a h)

theorem organizeResults_lookup_mem (subs : List SubtitleResult) (l : String)
    (sub : SubtitleResult)
    (h : dictLookup (organizeResults subs) l = some sub) :
    sub ∈ subs ∧ sub.language = l := by
  rw [organizeResults, foldl_dictInsert_lookup] at h
  cases hfs : (subs.filter (fun s => s.language == l)).getLast? with
  | none => rw [hfs] at h; simp [dictLookup] at h
  | some t =>
    rw [hfs] at h
    simp at h
    subst h
    have hmem := getLast?_mem_of_eq _ _ hfs
    rw [List.mem_filter] at hmem
    exact ⟨hmem.1, by simpa using hmem.2⟩

theorem runSearches_cached :
    ∀ (cs : List (Except String SearchResults)) (cache : SearchCache)
      (req : Request) (r : SearchResults),
      dictLookup cache req.key = some r →
      runSearches cache req cs = (cache, List.replicate cs.length r, 0) := by
  intro cs
  induction cs with
  | nil => intro cache req r h; simp [runSearches]
  | cons c cs ih =>
    intro cache req r h
    have hstep : searchStep cache req c = (cache, r, 0) := by
      simp [searchStep, h]
    simp [runSearches, hstep, ih cache req r h, List.replicate_succ]

/-! Claim theorems. -/

/-- Claim C1, counterexample: two requests whose language selections and
provider selections are equal as sets (they are permutations of each other)
and that agree on title, year, kind, season and episode nevertheless get
different cache keys, because src/main.py:212 joins the selections in list
order without sorting. -/
theorem cache_key_not_order_independent :
    (["eng", "fra"] : List String).Perm ["fra", "eng"] ∧
    (["opensubtitles", "podnapisi"] : List String).Perm
      ["podnapisi", "opensubtitles"] ∧
    cache_key "Inception" MediaType.movie 2010 ["eng", "fra"]
        ["opensubtitles", "podnapisi"] 1 1 ≠
      cache_key "Inception" MediaType.movie 2010 ["fra", "eng"]
        ["podnapisi", "opensubtitles"] 1 1 := by
  refine ⟨by decide, by decide, by decide⟩

/-- Claim C1, amended: the cache-key construction is a function of the tuple
(title, kind, year, language list, provider list, season, episode) — two
requests agreeing on title, year, kind, season, episode whose language and
provider selections are equal as ordered lists produce an identical key.
Set equality in a different iteration order does not suffice (see the
counterexample), since nothing canonicalizes the order. -/
theorem cache_key_depends_only_on_fields (title : String) (mt : MediaType)
    (year : Nat) (l1 l2 p1 p2 : List String) (season episode : Nat)
    (hl : l1 = l2) (hp : p1 = p2) :
    cache_key title mt year l1 p1 season episode =
      cache_key title mt year l2 p2 season episode := by
  rw [hl, hp]

/-- Claim C1, witness for the amended theorem at a concrete request. -/
theorem cache_key_depends_only_on_fields_witness :
    cache_key "Inception" MediaType.movie 2010 ["eng", "fra"]
        ["opensubtitles"] 1 1 =
      cache_key "Inception" MediaType.movie 2010 ["eng", "fra"]
        ["opensubtitles"] 1 1 :=
  cache_key_depends_only_on_fields "Inception" MediaType.movie 2010
    ["eng", "fra"] ["eng", "fra"] ["opensubtitles"] ["opensubtitles"] 1 1
    rfl rfl

/-- Claim C2, counterexample: the request asks only for `eng`, the
capability hands back a `fra` match, and the returned SearchResultSet
contains the key `fra`, which is not in the requested language set — the
loop at src/main.py:93-96 keys every match by its own language and never
filters against the request. -/
theorem search_returns_unrequested_language :
    (search_and_download_subtitles "Inception" 2010 MediaType.movie ["eng"]
        ["opensubtitles"] none none capFra).1 =
      Except.ok [("fra", subFra)] ∧ "fra" ∉ ["eng"] := by
  exact ⟨rfl, by decide⟩

/-- Claim C2, amended: every key of a returned SearchResultSet is the
language of the match stored under it, so whenever the external capability
honors its contract and returns only matches whose language lies in the
requested set, every key of the result lies in the requested set. The
aggregator itself performs no filtering, so an extra language handed back
by the capability flows through (see the counterexample). -/
theorem search_result_keys_requested (title : String) (year : Nat)
    (mt : MediaType) (langs provs : List String)
    (season episode : Option Nat)
    (cap : Video → List String → List String →
      Except String (List SubtitleResult))
    (r : SearchResults) (l : String) (sub : SubtitleResult)
    (hcontract : ∀ subs, cap (mkVideo title year mt season episode) langs
        provs = Except.ok subs → ∀ s ∈ subs, s.language ∈ langs)
    (hok : (search_and_download_subtitles title year mt langs provs season
        episode cap).1 = Except.ok r)
    (hl : dictLookup r l = some sub) :
    l ∈ langs := by
  unfold search_and_download_subtitles at hok
  cases hc : cap (mkVideo title year mt season episode) langs provs with
  | error e => rw [hc] at hok; simp at hok
  | ok subs =>
    rw [hc] at hok
    simp at hok
    subst hok
    obtain ⟨hmem, hlang⟩ := organizeResults_lookup_mem subs l sub hl
    have := hcontract subs hc sub hmem
    rwa [hlang] at this

/-- Claim C2, witness for the amended theorem: a capability returning one
`eng` match for an `eng` request, whose result key `eng` is requested. -/
theorem search_result_keys_requested_witness : ("eng" : String) ∈ ["eng"] :=
  search_result_keys_requested "Inception" 2010 MediaType.movie ["eng"]
    ["opensubtitles"] none none capEng [("eng", subEng)] "eng" subEng
    (by
      intro subs h s hs
      have hsubs : [subEng] = subs := by
        simpa [capEng] using h
      rw [← hsubs] at hs
      have hs' : s = subEng := by simpa using hs
      rw [hs']
      decide)
    rfl rfl

/-- Claim C3, counterexample: a kind=Episode request with season = 0 does
not fail with InvalidInput — `search_and_download_subtitles` contains no
season/episode validation, proceeds to invoke the provider capability
(invocation count 1) and returns a successful (empty) result set. -/
theorem season_zero_proceeds_to_search :
    (search_and_download_subtitles "Show" 2020 MediaType.episode ["eng"]
        ["opensubtitles"] (some 0) (some 1) capEmpty).2.2 = 1 ∧
    (search_and_download_subtitles "Show" 2020 MediaType.episode ["eng"]
        ["opensubtitles"] (some 0) (some 1) capEmpty).1 = Except.ok [] :=
  ⟨rfl, rfl⟩

/-- Claim C3, amended: the search operation validates nothing about season
or episode: for every request — including kind=Episode with season or
episode 0 or missing — it proceeds to exactly one provider-capability
invocation and never fails with InvalidInput; the only failure it can
return is the error raised by the capability itself. (The UI's number
inputs at src/main.py:179-180 bound season and episode to at least 1, so
the constraint lives in the form, not in the operation.) -/
theorem search_no_input_validation (title : String) (year : Nat)
    (mt : MediaType) (langs provs : List String)
    (season episode : Option Nat)
    (cap : Video → List String → List String →
      Except String (List SubtitleResult)) :
    (search_and_download_subtitles title year mt langs provs season episode
        cap).2.2 = 1 ∧
    ∀ e, (search_and_download_subtitles title year mt langs provs season
        episode cap).1 = Except.error e →
      cap (mkVideo title year mt season episode) langs provs =
        Except.error e := by
  unfold search_and_download_subtitles
  cases hc : cap (mkVideo title year mt season episode) langs provs with
  | error e =>
    refine ⟨rfl, ?_⟩
    intro e' he'
    simp at he'
    subst he'
    rfl
  | ok subs => exact ⟨rfl, by intro e' he'; simp at he'⟩

/-- Claim C4: evaluation at the failing input. With a credential configured
and the capability returning a completion whose message content is a valid
SRT block, `enhance_subtitles` does not return that text trimmed: line 140
of src/main.py calls `.strip()` on the completion object itself (the
correct `response.choices[0].message.content.strip()` is commented out at
line 139), so an AttributeError is raised, caught by the handler at lines
152-155, and the function reports an enhancement error and returns None. -/
theorem enhance_strip_attribute_error :
    enhance_subtitles (some "sk-test") (Except.ok completion0) =
      (EnhanceOutcome.enhancementFailed
        "AI Enhancement Error: AttributeError: ChatCompletion object has no attribute strip",
       1) := rfl

/-- Claim C5: within one session, once a request's key is absent from the
cache and the first press computes successfully, the stored value is reused
by every later press with the same key — across the whole sequence the
aggregator is invoked exactly once, and every press shows the same stored
result set. -/
theorem search_cache_computes_once (cache : SearchCache) (req : Request)
    (r : SearchResults) (rest : List (Except String SearchResults))
    (hmiss : dictLookup cache req.key = none) :
    (runSearches cache req (Except.ok r :: rest)).2.2 = 1 ∧
    (runSearches cache req (Except.ok r :: rest)).2.1 =
      List.replicate (rest.length + 1) r := by
  have hstep : searchStep cache req (Except.ok r) =
      (dictInsert cache req.key r, r, 1) := by
    simp [searchStep, hmiss]
  have hhit : dictLookup (dictInsert cache req.key r) req.key = some r :=
    dictLookup_dictInsert_self cache req.key r
  have hrest := runSearches_cached rest (dictInsert cache req.key r) req r hhit
  constructor
  · simp [runSearches, hstep, hrest]
  · simp [runSearches, hstep, hrest, List.replicate_succ]

/-- Claim C5, witness: two presses of the same request on an empty cache
invoke the aggregator once and show the stored results both times. -/
theorem search_cache_computes_once_witness :
    (runSearches [] req0 [Except.ok res0, Except.ok res0]).2.2 = 1 ∧
    (runSearches [] req0 [Except.ok res0, Except.ok res0]).2.1 =
      List.replicate 2 res0 :=
  search_cache_computes_once [] req0 res0 [Except.ok res0] rfl

/-- Claim C6: with no API credential configured, `enhance_subtitles` exits
on the guard at src/main.py:109-112 — it reports the missing key and
performs zero invocations of the external enhancement capability. -/
theorem enhance_missing_credential_no_call
    (capability : Except String ChatCompletion) :
    enhance_subtitles none capability =
      (EnhanceOutcome.missingCredential
        "Missing OpenAI API key. Please set the OPENROUTER_API_KEY environment variable.",
       0) := rfl

/-- Claim C7: the loop at src/main.py:93-96 overwrites on duplicate
language codes, so the SearchResultSet maps each language to exactly the
last match with that language in the iterated collection (and to nothing
when no match has it). -/
theorem organize_results_last_wins (subs : List SubtitleResult) (l : String) :
    dictLookup (organizeResults subs) l =
      (subs.filter (fun s => s.language == l)).getLast? := by
  rw [organizeResults, foldl_dictInsert_lookup]
  cases hfs : (subs.filter (fun s => s.language == l)).getLast? with
  | none => simp [dictLookup]
  | some t => simp

/-- Claim C8: on every exit path of the aggregator search — the capability
returning matches as well as the capability raising — the filesystem trace
ends with the removal of the temporary directory: the `finally` block at
src/main.py:102-104 runs `shutil.rmtree(temp_dir)` (which deletes the
directory together with the dummy file inside it) before the function
returns or re-raises. -/
theorem search_cleanup_always_runs (title : String) (year : Nat)
    (mt : MediaType) (langs provs : List String)
    (season episode : Option Nat)
    (cap : Video → List String → List String →
      Except String (List SubtitleResult)) :
    ((search_and_download_subtitles title year mt langs provs season episode
        cap).2.1).getLast? = some FsEvent.rmtreeEv := by
  unfold search_and_download_subtitles
  cases hc : cap (mkVideo title year mt season episode) langs provs <;> rfl

/-- Claim C9: a transport/auth/rate-limit error raised by the enhancement
capability reaches the handler at src/main.py:152-155 and is surfaced with
the underlying message appended to `AI Enhancement Error: ` — never
swallowed silently — and the capability is invoked exactly once, so the
call is never retried. -/
theorem enhance_capability_error_surfaced (key e : String) :
    enhance_subtitles (some key) (Except.error e) =
      (EnhanceOutcome.enhancementFailed ("AI Enhancement Error: " ++ e), 1) :=
  rfl

/-- Claim C10: when the key is absent and the aggregator fails, the handler
at src/main.py:233-236 shows an error and sets `results = {}` without ever
reaching the cache-store at line 231 — the cache is unchanged — and a
second press with the same key misses the cache again and re-invokes the
aggregator (two invocations across the failing press and the retry). -/
theorem search_cache_error_not_cached (cache : SearchCache) (req : Request)
    (e : String) (r : SearchResults)
    (hmiss : dictLookup cache req.key = none) :
    searchStep cache req (Except.error e) = (cache, [], 1) ∧
    (runSearches cache req [Except.error e, Except.ok r]).2.2 = 2 := by
  have hstep : searchStep cache req (Except.error e) = (cache, [], 1) := by
    simp [searchStep, hmiss]
  have hstep2 : searchStep cache req (Except.ok r) =
      (dictInsert cache req.key r, r, 1) := by
    simp [searchStep, hmiss]
  exact ⟨hstep, by simp [runSearches, hstep, hstep2]⟩

/-- Claim C10, witness: a failing first press on the empty cache leaves the
cache empty and a successful retry re-invokes the aggregator. -/
theorem search_cache_error_not_cached_witness :
    searchStep [] req0 (Except.error "network down") = ([], [], 1) ∧
    (runSearches [] req0 [Except.error "network down", Except.ok res0]).2.2 = 2 :=
  search_cache_error_not_cached [] req0 "network down" res0 rfl
